import Mathlib

/-!
Verification of the chess-board engine (`chess.py`).

The module is embedded shallowly:

* the Python dicts `X_NOTATION_TO_INT`, `Y_NOTATION_TO_INT` and their
  inverses become association lists (`X_TO_INT`, `Y_TO_INT`, `INT_TO_X`,
  `INT_TO_Y`) queried with `List.lookup`;
* the 8×8 board `list[list[Optional[Piece]]]` becomes a total function
  `Fin 8 → Fin 8 → Option Piece`, read and written through `bGet`/`bSet`
  (indexed `row`/`column` in that order, mirroring `self.board[y][x]`);
* a coordinate text (a Python `str` such as `"e4"`) becomes a `List Char`;
* `raise` becomes an error value: `validate_move` returns
  `Except PieceType Bool` (the error holds the piece type named by the
  `NotImplementedError`), `setup_piece` and `take_turn` return the possibly
  changed board together with an outcome, so that "the board is unchanged
  on failure" is a provable statement rather than a convention;
* the interactive `input()` prompts of `take_turn` become a list of
  (already stripped and lower-cased) reply strings consumed in order;
  an invalid reply, which in Python makes `get_coordinates_from_player`
  raise `ValueError` through `take_turn`, becomes the
  `TurnResult.valueError` outcome.
-/

/-- Colour enumeration (`class Colour(Enum)`). -/
inductive Colour where
  | WHITE
  | BLACK
deriving DecidableEq, Repr

/-- Piece-type enumeration (`class PieceType(Enum)`). -/
inductive PieceType where
  | PAWN
  | ROOK
  | KNIGHT
  | BISHOP
  | QUEEN
  | KING
deriving DecidableEq, Repr

/-- A chess piece (`@dataclass Piece`): a colour and a piece type. -/
structure Piece where
  colour : Colour
  piece_type : PieceType
deriving DecidableEq, Repr

/-- The dict `X_NOTATION_TO_INT` of `chess.py`: file letter to column. -/
def X_TO_INT : List (Char × Nat) :=
  [('a', 0), ('b', 1), ('c', 2), ('d', 3), ('e', 4), ('f', 5), ('g', 6), ('h', 7)]

/-- The dict `INT_TO_X_NOTATION`: the inverse of `X_TO_INT`. -/
def INT_TO_X : List (Nat × Char) :=
  [(0, 'a'), (1, 'b'), (2, 'c'), (3, 'd'), (4, 'e'), (5, 'f'), (6, 'g'), (7, 'h')]

/-- The dict `Y_NOTATION_TO_INT` of `chess.py`: rank digit to row, inverted. -/
def Y_TO_INT : List (Char × Nat) :=
  [('1', 7), ('2', 6), ('3', 5), ('4', 4), ('5', 3), ('6', 2), ('7', 1), ('8', 0)]

/-- The dict `INT_TO_Y_NOTATION`: the inverse of `Y_TO_INT`. -/
def INT_TO_Y : List (Nat × Char) :=
  [(7, '1'), (6, '2'), (5, '3'), (4, '4'), (3, '5'), (2, '6'), (1, '7'), (0, '8')]

/-- The 8×8 grid `self.board`, row-major: cell `(y, x)` is `board y x`. -/
def Board : Type := Fin 8 → Fin 8 → Option Piece

/-- The freshly initialised board of `Chessboard.__init__`: all cells empty. -/
def initial_board : Board := fun _ _ => none

/-- Read `self.board[y][x]` (in-range indices only; out of range reads `none`,
a case the embedded operations never exercise). -/
def bGet (b : Board) (y x : Nat) : Option Piece :=
  if hy : y < 8 then
    if hx : x < 8 then b ⟨y, hy⟩ ⟨x, hx⟩ else none
  else none

/-- Write `self.board[y][x] = p` (out of range writes are dropped; the
embedded operations only write in range). -/
def bSet (b : Board) (y x : Nat) (p : Option Piece) : Board :=
  fun j i => if j.val = y ∧ i.val = x then p else b j i

/-- `Chessboard.validate_coordinates`: the text must be exactly two
characters, the first a key of `X_NOTATION_TO_INT` and the second a key of
`Y_NOTATION_TO_INT`. -/
def validate_coordinates (coords : List Char) : Bool :=
  if coords.length ≠ 2 then false
  else if (X_TO_INT.lookup (coords.getD 0 ' ')).isNone then false
  else if (Y_TO_INT.lookup (coords.getD 1 ' ')).isNone then false
  else true

/-- The coordinate-reading core of `Chessboard.get_coordinates_from_player`
on one (already stripped and lower-cased) reply: validate, then look the two
characters up; `none` models the raised `ValueError`. -/
def parse_coord (s : List Char) : Option (Nat × Nat) :=
  if validate_coordinates s then
    match X_TO_INT.lookup (s.getD 0 ' '), Y_TO_INT.lookup (s.getD 1 ' ') with
    | some x, some y => some (x, y)
    | _, _ => none
  else none

/-- Rendering a cell back to text through the inverse dicts
`INT_TO_X_NOTATION` and `INT_TO_Y_NOTATION` (as `Chessboard.show` labels
files and ranks). -/
def render_coord (x y : Nat) : Option (List Char) :=
  match INT_TO_X.lookup x, INT_TO_Y.lookup y with
  | some cx, some cy => some [cx, cy]
  | _, _ => none

/-- `list(range(a, b))` on non-negative bounds. -/
def pyRange (a b : Nat) : List Nat := List.range' a (b - a)

/-- `Chessboard.validate_move`. The knight branch checks the L-shape offset;
the bishop branch checks diagonality and then walks `zip(xs, ys)` looking
for an occupied square; every other piece type raises
`NotImplementedError`, modelled as `Except.error` carrying the piece type. -/
def validate_move (b : Board) (piece : Piece) (x y new_x new_y : Nat) :
    Except PieceType Bool :=
  if piece.piece_type = PieceType.KNIGHT then
    .ok ((((x : Int) - new_x).natAbs == 2 && ((y : Int) - new_y).natAbs == 1) ||
         (((x : Int) - new_x).natAbs == 1 && ((y : Int) - new_y).natAbs == 2))
  else if piece.piece_type = PieceType.BISHOP then
    if ¬(((x : Int) - new_x).natAbs = ((y : Int) - new_y).natAbs) then .ok false
    else
      let xs := if x < new_x ∧ y < new_y then pyRange (x + 1) new_x
                else pyRange (new_x + 1) x
      let ys := if x < new_x ∧ y < new_y then pyRange (y + 1) new_y
                else pyRange (new_y + 1) y
      .ok ((xs.zip ys).all fun q => (bGet b q.2 q.1).isNone)
  else .error piece.piece_type

/-- A value passed to `setup_piece` as its `piece_type` argument: either an
actual `PieceType` member or some other Python object, which the
`isinstance` check rejects. -/
inductive PyPieceType where
  | valid (pt : PieceType)
  | invalid
deriving DecidableEq

/-- A value passed to `setup_piece` as its `colour` argument: either an
actual `Colour` member or some other Python object. -/
inductive PyColour where
  | valid (c : Colour)
  | invalid
deriving DecidableEq

/-- The distinct `ValueError`s `Chessboard.setup_piece` can raise. -/
inductive SetupError where
  | invalidPieceType
  | invalidColour
  | invalidCoordinates
  | occupied
deriving DecidableEq, Repr

/-- `Chessboard.setup_piece`: check the piece type, the colour, the
coordinate text and the occupancy of the target cell, in that order; only
when all pass is the board written. The result pairs the raised error (or
`none` on success) with the resulting board. -/
def setup_piece (b : Board) (piece_type : PyPieceType) (colour : PyColour)
    (coord : List Char) : Option SetupError × Board :=
  match piece_type with
  | .invalid => (some .invalidPieceType, b)
  | .valid pt =>
    match colour with
    | .invalid => (some .invalidColour, b)
    | .valid c =>
      if ¬validate_coordinates coord then (some .invalidCoordinates, b)
      else
        match X_TO_INT.lookup (coord.getD 0 ' '), Y_TO_INT.lookup (coord.getD 1 ' ') with
        | some x, some y =>
          if (bGet b y x).isSome then (some .occupied, b)
          else (none, bSet b y x (some ⟨c, pt⟩))
        | _, _ => (some .invalidCoordinates, b)

/-- The possible outcomes of one `Chessboard.take_turn` call, separating the
distinct printed rejections, the two escaping exceptions, and success. -/
inductive TurnResult where
  | ok
  | emptySquare
  | wrongColour
  | friendlyCapture
  | nullMove
  | illegalMove
  | valueError
  | notImplemented (pt : PieceType)
deriving DecidableEq, Repr

/-- `Chessboard.get_coordinates_from_player` over the reply stream: consume
the next reply and parse it; `none` models the escaping `ValueError` (or an
exhausted stream). -/
def get_coordinates_from_player (inputs : List (List Char)) :
    Option ((Nat × Nat) × List (List Char)) :=
  match inputs with
  | [] => none
  | s :: rest =>
    match parse_coord s with
    | some xy => some (xy, rest)
    | none => none

/-- `Chessboard.take_turn` for `colour`, consuming player replies from
`inputs`: read the source square, check it holds a piece of the mover's
colour, read the destination, reject friendly captures, then null moves,
then validate the piece's movement rule, and only then move the piece
(destination written first, source cleared second, as in the Python). -/
def take_turn (colour : Colour) (inputs : List (List Char)) (b : Board) :
    TurnResult × Board :=
  match get_coordinates_from_player inputs with
  | none => (.valueError, b)
  | some ((x, y), inputs) =>
    match bGet b y x with
    | none => (.emptySquare, b)
    | some piece =>
      if piece.colour ≠ colour then (.wrongColour, b)
      else
        match get_coordinates_from_player inputs with
        | none => (.valueError, b)
        | some ((new_x, new_y), _) =>
          if (match bGet b new_y new_x with
              | some np => decide (colour = np.colour)
              | none => false) then (.friendlyCapture, b)
          else if (new_x, new_y) = (x, y) then (.nullMove, b)
          else
            match validate_move b piece x y new_x new_y with
            | .error pt => (.notImplemented pt, b)
            | .ok false => (.illegalMove, b)
            | .ok true => (.ok, bSet (bSet b new_y new_x (some piece)) y x none)

/-! ### Concrete boards used by the scenario claims -/

/-- A board holding a White Bishop at "a1" (cell x=0, y=7) and a Black Pawn
at "b2" (cell x=1, y=6), the strictly intermediate square of the diagonal
from "a1" to "c3". -/
def bishop_blocked_board : Board :=
  bSet (bSet initial_board 7 0 (some ⟨.WHITE, .BISHOP⟩)) 6 1 (some ⟨.BLACK, .PAWN⟩)

/-- The empty board after `setup_piece` places a White Knight at "b1". -/
def c3_board0 : Board :=
  (setup_piece initial_board (.valid .KNIGHT) (.valid .WHITE) ['b', '1']).2

/-- The board after White's Knight moves from "b1" to "a3". -/
def c3_board1 : Board := (take_turn .WHITE [['b', '1'], ['a', '3']] c3_board0).2

/-- C1: the spec says a Bishop move is legal only when every square strictly
between source and destination along the diagonal is empty. The code checks
this only for moves where both coordinates increase or both decrease: on an
anti-diagonal move (here x increases while y decreases) `zip(xs, ys)` pairs
an empty range with a non-empty one and the blocker is never inspected.
With a White Bishop at (x=0, y=7) and a blocking Pawn on the intermediate
square (x=1, y=6), the move to (x=2, y=5) is reported legal. -/
theorem C1_bishop_jump_code_bug :
    validate_move bishop_blocked_board ⟨.WHITE, .BISHOP⟩ 0 7 2 5 = .ok true ∧
    bGet bishop_blocked_board 6 1 ≠ none := by
  exact ⟨rfl, by decide⟩

/-- C3 counterexample: after the Knight reaches "a3", a White turn from "a3"
to "a3" is not rejected as `NullMove`: the friendly-capture check sees the
mover's own piece on the (identical) destination square first. -/
theorem C3_counterexample :
    (take_turn .WHITE [['a', '3'], ['a', '3']] c3_board1).1 ≠ TurnResult.nullMove := by
  decide

/-- C3 amended: the first turn ("b1" to "a3") succeeds and moves the Knight,
and the null turn ("a3" to "a3") fails — but with the friendly-capture
rejection (the destination, being the source, holds the mover's own piece,
and that check precedes the null-move check), not `NullMove`. -/
theorem C3_amended_scenario :
    (take_turn .WHITE [['b', '1'], ['a', '3']] c3_board0).1 = .ok ∧
    bGet c3_board1 5 0 = some ⟨.WHITE, .KNIGHT⟩ ∧
    bGet c3_board1 7 1 = none ∧
    take_turn .WHITE [['a', '3'], ['a', '3']] c3_board1 = (.friendlyCapture, c3_board1) :=
  ⟨rfl, rfl, rfl, rfl⟩

/-- C2: a Knight move is accepted exactly on the eight L-shaped offsets
`(|Δx|, |Δy|) ∈ {(2,1), (1,2)}`, and the validator always returns a plain
Boolean for a Knight — the board (occupancy) is irrelevant, as the statement
quantifies over every board. -/
theorem C2_knight_offsets (b : Board) (p : Piece) (x y new_x new_y : Nat)
    (hp : p.piece_type = PieceType.KNIGHT)
    (hx : x < 8) (hy : y < 8) (hnx : new_x < 8) (hny : new_y < 8) :
    (validate_move b p x y new_x new_y = .ok true ↔
      ((((x : Int) - new_x).natAbs = 2 ∧ ((y : Int) - new_y).natAbs = 1) ∨
       (((x : Int) - new_x).natAbs = 1 ∧ ((y : Int) - new_y).natAbs = 2))) ∧
    (validate_move b p x y new_x new_y = .ok true ∨
     validate_move b p x y new_x new_y = .ok false) := by
  unfold validate_move
  rw [hp]
  simp only [if_pos rfl]
  constructor
  · simp
  · rcases Bool.eq_false_or_eq_true
      ((((x : Int) - new_x).natAbs == 2 && ((y : Int) - new_y).natAbs == 1) ||
       (((x : Int) - new_x).natAbs == 1 && ((y : Int) - new_y).natAbs == 2)) with h | h
    · left; rw [h]; simp
    · right; rw [h]; simp

/-- C2 witness: the offset (2,1) from (1,7) to (3,6) is a legal Knight move
on the empty board. -/
theorem C2_knight_offsets_witness :
    validate_move initial_board ⟨.WHITE, .KNIGHT⟩ 1 7 3 6 = .ok true :=
  (C2_knight_offsets initial_board ⟨.WHITE, .KNIGHT⟩ 1 7 3 6 rfl
    (by decide) (by decide) (by decide) (by decide)).1.mpr (by decide)

/-- C5: for every piece whose type is neither Knight nor Bishop, the
validator raises `NotImplementedError` naming the piece type — modelled as
`Except.error` carrying that type — instead of returning a Boolean. -/
theorem C5_not_implemented (b : Board) (p : Piece) (x y new_x new_y : Nat)
    (hk : p.piece_type ≠ PieceType.KNIGHT) (hb : p.piece_type ≠ PieceType.BISHOP) :
    validate_move b p x y new_x new_y = .error p.piece_type := by
  unfold validate_move
  rw [if_neg hk, if_neg hb]

/-- C5 witness: validating any Pawn move raises the Pawn-naming error. -/
theorem C5_not_implemented_witness :
    validate_move initial_board ⟨.WHITE, .PAWN⟩ 0 6 0 5 = .error PieceType.PAWN :=
  C5_not_implemented initial_board ⟨.WHITE, .PAWN⟩ 0 6 0 5 (by decide) (by decide)

/-! ### Generic lemmas about `take_turn` and coordinate parsing -/

/-- Any `take_turn` call either succeeds or returns the board untouched. -/
theorem take_turn_ok_or_unchanged (colour : Colour) (inputs : List (List Char)) (b : Board) :
    (take_turn colour inputs b).1 = .ok ∨ (take_turn colour inputs b).2 = b := by
  unfold take_turn
  repeat' split
  all_goals first | (left; rfl) | (right; rfl)

/-- A reply that fails coordinate validation parses to `none` (the raised
`ValueError`). -/
theorem parse_coord_invalid {s : List Char} (h : validate_coordinates s = false) :
    parse_coord s = none := by
  unfold parse_coord
  rw [h]
  rfl

/-- Looking a column index up in the inverted dict recovers the file letter. -/
theorem X_lookup_inv {c : Char} {x : Nat} (h : X_TO_INT.lookup c = some x) :
    INT_TO_X.lookup x = some c := by
  simp only [X_TO_INT, List.lookup] at h
  repeat' split at h
  all_goals simp_all
  all_goals (subst h; rfl)

/-- Looking a row index up in the inverted dict recovers the rank digit. -/
theorem Y_lookup_inv {c : Char} {y : Nat} (h : Y_TO_INT.lookup c = some y) :
    INT_TO_Y.lookup y = some c := by
  simp only [Y_TO_INT, List.lookup] at h
  repeat' split at h
  all_goals simp_all
  all_goals (subst h; rfl)

/-- A list of length two is a two-element list. -/
theorem list_len_two {α : Type} {s : List α} (h : s.length = 2) :
    ∃ a b, s = [a, b] := by
  match s, h with
  | [a, b], _ => exact ⟨a, b, rfl⟩

/-! ### Claims C4, C6, C7, C10 -/

/-- C4: parsing a coordinate text to grid indices and re-rendering those
indices through the inverse dicts is the identity on every text that parses,
and the rank axis is inverted: "a1" maps to (x=0, y=7) and "h8" to
(x=7, y=0). -/
theorem C4_roundtrip :
    (∀ s x y, parse_coord s = some (x, y) → render_coord x y = some s) ∧
    parse_coord ['a', '1'] = some (0, 7) ∧ parse_coord ['h', '8'] = some (7, 0) := by
  refine ⟨?_, by decide, by decide⟩
  intro s x y h
  unfold parse_coord at h
  by_cases hv : validate_coordinates s = true
  · rw [if_pos hv] at h
    have hl : s.length = 2 := by
      by_contra hl
      unfold validate_coordinates at hv
      rw [if_pos hl] at hv
      exact Bool.false_ne_true hv
    obtain ⟨a, b', hs⟩ := list_len_two hl
    subst hs
    cases hx : X_TO_INT.lookup (([a, b'] : List Char).getD 0 ' ') with
    | none => rw [hx] at h; cases h
    | some xv =>
      cases hy : Y_TO_INT.lookup (([a, b'] : List Char).getD 1 ' ') with
      | none => rw [hx, hy] at h; cases h
      | some yv =>
        rw [hx, hy] at h
        simp only [Option.some.injEq, Prod.mk.injEq] at h
        obtain ⟨hxx, hyy⟩ := h
        subst hxx; subst hyy
        unfold render_coord
        rw [X_lookup_inv hx, Y_lookup_inv hy]
        simp [List.getD]
  · rw [if_neg hv] at h
    cases h

/-- C4 witness: "b2" parses to (1, 6) and those indices render back to
"b2". -/
theorem C4_roundtrip_witness : render_coord 1 6 = some ['b', '2'] :=
  C4_roundtrip.1 ['b', '2'] 1 6 (by decide)

/-- C6: the friendly-capture and null-move checks run before the
piece-specific validator: a turn on a piece of an unimplemented type whose
destination holds an own-colour piece or equals the source is rejected
(with one of those two pre-validator rejections, the board untouched), and
`NotImplementedError` is never raised. -/
theorem C6_checks_before_validator (colour : Colour) (b : Board)
    (s1 s2 : List Char) (rest : List (List Char)) (x y new_x new_y : Nat) (p : Piece)
    (h1 : parse_coord s1 = some (x, y)) (hp : bGet b y x = some p)
    (hc : p.colour = colour)
    (hk : p.piece_type ≠ PieceType.KNIGHT) (hb : p.piece_type ≠ PieceType.BISHOP)
    (h2 : parse_coord s2 = some (new_x, new_y))
    (hdest : (∃ q, bGet b new_y new_x = some q ∧ q.colour = colour) ∨
             (new_x, new_y) = (x, y)) :
    take_turn colour (s1 :: s2 :: rest) b = (.friendlyCapture, b) ∨
    take_turn colour (s1 :: s2 :: rest) b = (.nullMove, b) := by
  have hq : ∃ q, bGet b new_y new_x = some q ∧ q.colour = colour := by
    rcases hdest with h | h
    · exact h
    · rw [Prod.mk.injEq] at h
      obtain ⟨hx', hy'⟩ := h
      subst hx'; subst hy'
      exact ⟨p, hp, hc⟩
  obtain ⟨q, hq1, hq2⟩ := hq
  left
  unfold take_turn get_coordinates_from_player
  simp [h1, hp, h2, hq1, hq2, hc]

/-- A board holding only a White Pawn at "e4" (x=4, y=4). -/
def pawn_board : Board := bSet initial_board 4 4 (some ⟨.WHITE, .PAWN⟩)

/-- C6 witness: a White turn from "e4" to "e4" on a Pawn — an unimplemented
piece type with destination equal to the source — is rejected before the
validator. -/
theorem C6_checks_before_validator_witness :
    take_turn .WHITE [['e', '4'], ['e', '4']] pawn_board = (.friendlyCapture, pawn_board) ∨
    take_turn .WHITE [['e', '4'], ['e', '4']] pawn_board = (.nullMove, pawn_board) :=
  C6_checks_before_validator .WHITE pawn_board ['e', '4'] ['e', '4'] [] 4 4 4 4
    ⟨.WHITE, .PAWN⟩ (by decide) (by decide) rfl (by decide) (by decide) (by decide)
    (Or.inr rfl)

/-- C7: every failing `take_turn` call — empty source, wrong colour,
friendly capture, null move, illegal move, invalid coordinates, or
unimplemented piece type — leaves every cell of the board exactly as it
was. -/
theorem C7_failure_preserves_board (colour : Colour) (inputs : List (List Char)) (b : Board)
    (h : (take_turn colour inputs b).1 ≠ TurnResult.ok) :
    (take_turn colour inputs b).2 = b :=
  (take_turn_ok_or_unchanged colour inputs b).resolve_left h

/-- C7 witness: a turn naming an empty source square fails and returns the
empty board unchanged. -/
theorem C7_failure_preserves_board_witness :
    (take_turn .WHITE [['a', '1']] initial_board).2 = initial_board :=
  C7_failure_preserves_board .WHITE [['a', '1']] initial_board (by decide)

/-- C10: a reply failing coordinate validation does not produce the
ordinary turn-failed result: the `ValueError` raised by
`get_coordinates_from_player` escapes `take_turn` (at either prompt — the
second is only reached once the source-square checks pass), with the board
unchanged. -/
theorem C10_invalid_coordinate_escapes (colour : Colour) (b : Board) :
    (∀ s1 rest, validate_coordinates s1 = false →
      take_turn colour (s1 :: rest) b = (.valueError, b)) ∧
    (∀ s1 s2 rest x y p, parse_coord s1 = some (x, y) → bGet b y x = some p →
      p.colour = colour → validate_coordinates s2 = false →
      take_turn colour (s1 :: s2 :: rest) b = (.valueError, b)) := by
  constructor
  · intro s1 rest h
    unfold take_turn get_coordinates_from_player
    simp [parse_coord_invalid h]
  · intro s1 s2 rest x y p h1 hp hc h2
    unfold take_turn get_coordinates_from_player
    simp [h1, hp, hc, parse_coord_invalid h2]

/-- C10 witness: the malformed reply "z9" makes the turn end in the escaped
`ValueError` with the board unchanged. -/
theorem C10_invalid_coordinate_escapes_witness :
    take_turn .WHITE [['z', '9']] initial_board = (.valueError, initial_board) :=
  (C10_invalid_coordinate_escapes .WHITE initial_board).1 ['z', '9'] [] (by decide)

/-! ### Character-range lemmas for the coordinate dictionaries -/

/-- A character between 'a' and 'h' is one of the eight file letters. -/
theorem file_letter_enum {c : Char} (h1 : 'a' ≤ c) (h2 : c ≤ 'h') :
    c = 'a' ∨ c = 'b' ∨ c = 'c' ∨ c = 'd' ∨ c = 'e' ∨ c = 'f' ∨ c = 'g' ∨ c = 'h' := by
  have g1 : 97 ≤ c.toNat := h1
  have g2 : c.toNat ≤ 104 := h2
  have hof : Char.ofNat c.toNat = c := Char.ofNat_toNat c
  interval_cases h : c.toNat <;> rw [← hof] <;> decide

/-- A character between '1' and '8' is one of the eight rank digits. -/
theorem rank_digit_enum {c : Char} (h1 : '1' ≤ c) (h2 : c ≤ '8') :
    c = '1' ∨ c = '2' ∨ c = '3' ∨ c = '4' ∨ c = '5' ∨ c = '6' ∨ c = '7' ∨ c = '8' := by
  have g1 : 49 ≤ c.toNat := h1
  have g2 : c.toNat ≤ 56 := h2
  have hof : Char.ofNat c.toNat = c := Char.ofNat_toNat c
  interval_cases h : c.toNat <;> rw [← hof] <;> decide

/-- Membership in the file dict is exactly the letter range 'a'..'h'. -/
theorem X_lookup_isSome {c : Char} :
    (X_TO_INT.lookup c).isSome = true ↔ ('a' ≤ c ∧ c ≤ 'h') := by
  constructor
  · intro h
    simp only [X_TO_INT, List.lookup] at h
    repeat' split at h
    all_goals simp_all
  · rintro ⟨h1, h2⟩
    rcases file_letter_enum h1 h2 with h | h | h | h | h | h | h | h
    all_goals (subst h; decide)

/-- Membership in the rank dict is exactly the digit range '1'..'8'. -/
theorem Y_lookup_isSome {c : Char} :
    (Y_TO_INT.lookup c).isSome = true ↔ ('1' ≤ c ∧ c ≤ '8') := by
  constructor
  · intro h
    simp only [Y_TO_INT, List.lookup] at h
    repeat' split at h
    all_goals simp_all
  · rintro ⟨h1, h2⟩
    rcases rank_digit_enum h1 h2 with h | h | h | h | h | h | h | h
    all_goals (subst h; decide)

/-! ### Claim C9 -/

/-- C9: `validate_coordinates` accepts a text exactly when it has two
characters, the first a file letter in 'a'..'h' and the second a rank digit
in '1'..'8'; every other string is rejected. -/
theorem C9_validate_coordinates_iff (s : List Char) :
    validate_coordinates s = true ↔
      (s.length = 2 ∧ ('a' ≤ s.getD 0 ' ' ∧ s.getD 0 ' ' ≤ 'h') ∧
       ('1' ≤ s.getD 1 ' ' ∧ s.getD 1 ' ' ≤ '8')) := by
  constructor
  · intro h
    unfold validate_coordinates at h
    by_cases hl : s.length ≠ 2
    · rw [if_pos hl] at h; cases h
    · rw [if_neg hl] at h
      by_cases hx : (X_TO_INT.lookup (s.getD 0 ' ')).isNone
      · rw [if_pos hx] at h; cases h
      · rw [if_neg hx] at h
        by_cases hy : (Y_TO_INT.lookup (s.getD 1 ' ')).isNone
        · rw [if_pos hy] at h; cases h
        · have hx' : (X_TO_INT.lookup (s.getD 0 ' ')).isSome = true := by
            cases hc : X_TO_INT.lookup (s.getD 0 ' ') with
            | none => rw [hc] at hx; exact absurd rfl hx
            | some v => rfl
          have hy' : (Y_TO_INT.lookup (s.getD 1 ' ')).isSome = true := by
            cases hc : Y_TO_INT.lookup (s.getD 1 ' ') with
            | none => rw [hc] at hy; exact absurd rfl hy
            | some v => rfl
          exact ⟨not_not.mp hl, X_lookup_isSome.mp hx', Y_lookup_isSome.mp hy'⟩
  · rintro ⟨hl, hx, hy⟩
    unfold validate_coordinates
    obtain ⟨vx, hvx⟩ := Option.isSome_iff_exists.mp (X_lookup_isSome.mpr hx)
    obtain ⟨vy, hvy⟩ := Option.isSome_iff_exists.mp (Y_lookup_isSome.mpr hy)
    rw [if_neg (by simp [hl]), hvx, hvy]
    rfl

/-! ### Claim C8 -/

/-- A successful parse means the text validated and the two characters look
up to the parsed indices. -/
theorem parse_coord_some {s : List Char} {x y : Nat} (h : parse_coord s = some (x, y)) :
    validate_coordinates s = true ∧
    X_TO_INT.lookup (s.getD 0 ' ') = some x ∧ Y_TO_INT.lookup (s.getD 1 ' ') = some y := by
  unfold parse_coord at h
  by_cases hv : validate_coordinates s = true
  · rw [if_pos hv] at h
    cases hlx : X_TO_INT.lookup (s.getD 0 ' ') with
    | none => rw [hlx] at h; simp at h
    | some vx =>
      cases hly : Y_TO_INT.lookup (s.getD 1 ' ') with
      | none => rw [hlx, hly] at h; simp at h
      | some vy =>
        rw [hlx, hly] at h
        simp only [Option.some.injEq, Prod.mk.injEq] at h
        exact ⟨hv, congrArg some h.1, congrArg some h.2⟩
  · rw [if_neg hv] at h; cases h

/-- Column indices produced by the file dict are in range. -/
theorem X_lookup_lt {c : Char} {x : Nat} (h : X_TO_INT.lookup c = some x) : x < 8 := by
  simp only [X_TO_INT, List.lookup] at h
  repeat' split at h
  all_goals simp_all
  all_goals omega

/-- Row indices produced by the rank dict are in range. -/
theorem Y_lookup_lt {c : Char} {y : Nat} (h : Y_TO_INT.lookup c = some y) : y < 8 := by
  simp only [Y_TO_INT, List.lookup] at h
  repeat' split at h
  all_goals simp_all
  all_goals omega

/-- Reading back the cell just written. -/
theorem bGet_bSet_same (b : Board) (y x : Nat) (p : Option Piece)
    (hy : y < 8) (hx : x < 8) : bGet (bSet b y x p) y x = p := by
  unfold bGet bSet
  rw [dif_pos hy, dif_pos hx]
  simp

/-- C8: `setup_piece` fails — returning the raised error with the board
untouched — when the piece type is not a `PieceType` member, when the colour
is not a `Colour` member, when the coordinate text is malformed or out of
range, or when the target cell already holds a piece; and placing once on an
empty cell succeeds and installs the piece, after which placing again at the
same coordinate fails with the occupied-cell error while the first piece
remains in place. -/
theorem C8_setup_piece_errors (b : Board) (coord : List Char) :
    (∀ c, setup_piece b PyPieceType.invalid c coord = (some SetupError.invalidPieceType, b)) ∧
    (∀ pt, setup_piece b (.valid pt) PyColour.invalid coord = (some SetupError.invalidColour, b)) ∧
    (∀ pt c, validate_coordinates coord = false →
      setup_piece b (.valid pt) (.valid c) coord = (some SetupError.invalidCoordinates, b)) ∧
    (∀ pt c x y q, parse_coord coord = some (x, y) → bGet b y x = some q →
      setup_piece b (.valid pt) (.valid c) coord = (some SetupError.occupied, b)) ∧
    (∀ pt c x y, parse_coord coord = some (x, y) → bGet b y x = none →
      (setup_piece b (.valid pt) (.valid c) coord).1 = none ∧
      bGet (setup_piece b (.valid pt) (.valid c) coord).2 y x = some ⟨c, pt⟩ ∧
      ∀ pt2 c2,
        setup_piece (setup_piece b (.valid pt) (.valid c) coord).2 (.valid pt2) (.valid c2) coord
          = (some SetupError.occupied, (setup_piece b (.valid pt) (.valid c) coord).2)) := by
  refine ⟨fun c => rfl, fun pt => rfl, ?_, ?_, ?_⟩
  · intro pt c h
    simp only [setup_piece]
    rw [if_pos (by simp [h])]
  · intro pt c x y q h hq
    obtain ⟨hv, hlx, hly⟩ := parse_coord_some h
    simp only [setup_piece]
    rw [if_neg (by simp [hv])]
    simp only [hlx, hly]
    rw [if_pos (by rw [hq]; rfl)]
  · intro pt c x y h hq
    obtain ⟨hv, hlx, hly⟩ := parse_coord_some h
    have hxl := X_lookup_lt hlx
    have hyl := Y_lookup_lt hly
    have hfst : setup_piece b (.valid pt) (.valid c) coord
        = (none, bSet b y x (some ⟨c, pt⟩)) := by
      simp only [setup_piece]
      rw [if_neg (by simp [hv])]
      simp only [hlx, hly]
      rw [if_neg (by rw [hq]; simp)]
    rw [hfst]
    refine ⟨rfl, ?_, ?_⟩
    · exact bGet_bSet_same b y x (some ⟨c, pt⟩) hyl hxl
    · intro pt2 c2
      simp only [setup_piece]
      rw [if_neg (by simp [hv])]
      simp only [hlx, hly]
      rw [if_pos (by rw [bGet_bSet_same b y x (some ⟨c, pt⟩) hyl hxl]; rfl)]

/-- C8 witness: placing a White Pawn at "e4" on the empty board succeeds and
installs it at (x=4, y=4); placing any further piece at "e4" then fails with
the occupied-cell error and the board — Pawn included — is unchanged. -/
theorem C8_setup_piece_errors_witness :
    (setup_piece initial_board (.valid .PAWN) (.valid .WHITE) ['e', '4']).1 = none ∧
    bGet (setup_piece initial_board (.valid .PAWN) (.valid .WHITE) ['e', '4']).2 4 4
      = some ⟨.WHITE, .PAWN⟩ ∧
    setup_piece (setup_piece initial_board (.valid .PAWN) (.valid .WHITE) ['e', '4']).2
        (.valid .KNIGHT) (.valid .BLACK) ['e', '4']
      = (some SetupError.occupied,
         (setup_piece initial_board (.valid .PAWN) (.valid .WHITE) ['e', '4']).2) :=
  have h := (C8_setup_piece_errors initial_board ['e', '4']).2.2.2.2
    .PAWN .WHITE 4 4 (by decide) rfl
  ⟨h.1, h.2.1, h.2.2 .KNIGHT .BLACK⟩
